import Mathlib

/-!
Verification of the guessing-game loop (`src/ch2_guessing_game/src/main.rs`)
and the 3×3 matrix transpose
(`src/comprehensive_rust_interactive/exercise/src/main.rs`) against their
natural-language specification.

The guessing game is shallowly embedded as a deterministic step function on
a two-state machine (`Guessing` / `Won`) driven by a list of read results,
emitting a trace of output events.
-/

namespace GuessingGame

/-- The two states of the loop: `Guessing` (inside the `loop`) and `Won`
(after `break`). -/
inductive GameState where
  | Guessing : GameState
  | Won : GameState
deriving DecidableEq, Repr

/-- Observable output events of one run, in emission order:
`prompt` is `"Please input your guess."`, `echo g` is `"You guessed: {g}"`,
`tooSmall` / `tooBig` / `win` are the three comparison feedback lines. -/
inductive Output where
  | prompt : Output
  | echo : Nat → Output
  | tooSmall : Output
  | tooBig : Output
  | win : Output
deriving DecidableEq, Repr

/-- One read from standard input: either a full line, or an I/O error
(`read_line` returning `Err`). -/
inductive ReadResult where
  | line : String → ReadResult
  | ioError : ReadResult
deriving DecidableEq, Repr

/-- How the process ends: implicit success after `main` returns, or a panic
(the `.expect("Failed to read line")` on a failed read), which yields a
non-zero process exit code. -/
inductive ExitCode where
  | success : ExitCode
  | panic : ExitCode
deriving DecidableEq, Repr

/-- Rust's `char::is_whitespace`: the Unicode `White_Space` property. -/
def isRustWhitespace (c : Char) : Bool :=
  [0x09, 0x0A, 0x0B, 0x0C, 0x0D, 0x20, 0x85, 0xA0, 0x1680,
   0x2000, 0x2001, 0x2002, 0x2003, 0x2004, 0x2005, 0x2006, 0x2007,
   0x2008, 0x2009, 0x200A, 0x2028, 0x2029, 0x202F, 0x205F,
   0x3000].contains c.toNat

/-- Rust's `str::trim`: drop leading and trailing whitespace characters. -/
def rustTrim (s : String) : String :=
  String.mk
    (((s.data.dropWhile isRustWhitespace).reverse.dropWhile
        isRustWhitespace).reverse)

/-- Embedding of `guess.trim().parse::<u32>()`: an optional leading `+`,
then one or more ASCII digits, value below `2^32`; anything else
(empty, sign alone, a `-` sign, non-digit characters, overflow) fails. -/
def parseU32 (s : String) : Option Nat :=
  let chars := s.data
  let digits := if chars.head? = some '+' then chars.tail else chars
  if digits.isEmpty then none
  else if digits.all (fun c => c.isDigit) then
    let n := digits.foldl (fun acc c => acc * 10 + (c.toNat - '0'.toNat)) 0
    if n < 2 ^ 32 then some n else none
  else none

/-- Embedding of `u32::cmp`: the three-way comparison used by
`guess.cmp(&secret_number)`. -/
def cmpU32 (a b : Nat) : Ordering :=
  if a < b then Ordering.lt else if a = b then Ordering.eq else Ordering.gt

/-- One iteration of the `loop` body on a successfully read line, starting
from the `Guessing` state: print the prompt, trim and parse the line
(`continue` on failure), echo the parsed guess, then dispatch on the
three-way comparison (`Too small!` / `Too big!` / `You win!` + `break`). -/
def guessIter (secret : Nat) (l : String) : GameState × List Output :=
  match parseU32 (rustTrim l) with
  | none => (GameState.Guessing, [Output.prompt])
  | some g =>
    match cmpU32 g secret with
    | Ordering.lt =>
        (GameState.Guessing, [Output.prompt, Output.echo g, Output.tooSmall])
    | Ordering.gt =>
        (GameState.Guessing, [Output.prompt, Output.echo g, Output.tooBig])
    | Ordering.eq =>
        (GameState.Won, [Output.prompt, Output.echo g, Output.win])

/-- The full transition function of the state machine: from `Guessing` run
one loop iteration; `Won` is terminal — the loop has been exited, so no
code runs, nothing is printed, and the state cannot change. -/
def gameStep (secret : Nat) (s : GameState) (l : String) : GameState × List Output :=
  match s with
  | GameState.Won => (GameState.Won, [])
  | GameState.Guessing => guessIter secret l

/-- Run the loop from the `Guessing` state on a list of read results.
Returns the emitted outputs, how the process ended (`some success` via the
win branch, `some panic` on a failed read, `none` when the input list is
exhausted while still guessing), and the unconsumed read results. -/
def runLoop (secret : Nat) : List ReadResult → List Output × Option ExitCode × List ReadResult
  | [] => ([], none, [])
  | ReadResult.ioError :: rest => ([Output.prompt], some ExitCode.panic, rest)
  | ReadResult.line l :: rest =>
    match guessIter secret l with
    | (GameState.Won, out) => (out, some ExitCode.success, rest)
    | (GameState.Guessing, out) =>
      let (out2, ex, rem) := runLoop secret rest
      (out ++ out2, ex, rem)

/-- The loop's full context: the immutable `secret_number` binding together
with the control state. -/
structure GameCtx where
  secret : Nat
  state : GameState
deriving DecidableEq, Repr

/-- `gameStep` lifted to the full context; the `secret` field is the
immutable `let secret_number` binding, which no statement of the loop body
assigns. -/
def ctxStep (c : GameCtx) (l : String) : GameCtx × List Output :=
  let (s, out) := gameStep c.secret c.state l
  ({ secret := c.secret, state := s }, out)

/-- Iterated `ctxStep` over a list of input lines. -/
def ctxRun (c : GameCtx) (ls : List String) : GameCtx :=
  ls.foldl (fun acc l => (ctxStep acc l).1) c

/-- Modelled from the spec: `rand::thread_rng().gen_range(1..=100)` calls
the external `rand` crate, whose code is not under `src/`; per the spec the
secret is "drawn once per run from a uniform random distribution over a
fixed inclusive range (1 to 100)". `r` is the raw value supplied by the
generator. -/
def genRange1To100 (r : Nat) : Nat := 1 + r % 100

end GuessingGame

namespace RustEx

/-- Write `v` at position `(i, j)` of a 3×3 matrix, leaving every other
entry unchanged (the assignment `transposed[i][j] = matrix[j][i]`). -/
def setEntry (m : Fin 3 → Fin 3 → Int) (i j : Fin 3) (v : Int) :
    Fin 3 → Fin 3 → Int :=
  fun a b => if a = i ∧ b = j then v else m a b

/-- Embedding of `transpose`: start from a clone of the input matrix, then
for `i in 0..3`, for `j in 0..3`, assign `transposed[i][j] = matrix[j][i]`;
`matrix` is an owned by-value argument and is never assigned. -/
def transpose (matrix : Fin 3 → Fin 3 → Int) : Fin 3 → Fin 3 → Int :=
  ([0, 1, 2] : List (Fin 3)).foldl
    (fun acc i =>
      ([0, 1, 2] : List (Fin 3)).foldl
        (fun acc2 j => setEntry acc2 i j (matrix j i)) acc)
    matrix

end RustEx

namespace GuessingGame

/-- Helper: one iteration on an unparseable line only re-prompts and stays
in `Guessing`. -/
theorem guessIter_parse_none {secret : Nat} {l : String}
    (h : parseU32 (rustTrim l) = none) :
    guessIter secret l = (GameState.Guessing, [Output.prompt]) := by
  simp [guessIter, h]

/-- Helper: one iteration on a guess below the secret echoes it, reports
`Too small!`, and stays in `Guessing`. -/
theorem guessIter_parse_lt {secret g : Nat} {l : String}
    (h : parseU32 (rustTrim l) = some g) (hlt : g < secret) :
    guessIter secret l =
      (GameState.Guessing, [Output.prompt, Output.echo g, Output.tooSmall]) := by
  simp [guessIter, h, cmpU32, hlt]

/-- Helper: one iteration on a guess above the secret echoes it, reports
`Too big!`, and stays in `Guessing`. -/
theorem guessIter_parse_gt {secret g : Nat} {l : String}
    (h : parseU32 (rustTrim l) = some g) (hgt : secret < g) :
    guessIter secret l =
      (GameState.Guessing, [Output.prompt, Output.echo g, Output.tooBig]) := by
  have h1 : ¬ g < secret := by omega
  have h2 : ¬ g = secret := by omega
  simp [guessIter, h, cmpU32, h1, h2]

/-- Helper: one iteration on the secret itself echoes it, reports
`You win!`, and moves to `Won`. -/
theorem guessIter_parse_eq {secret : Nat} {l : String}
    (h : parseU32 (rustTrim l) = some secret) :
    guessIter secret l =
      (GameState.Won, [Output.prompt, Output.echo secret, Output.win]) := by
  simp [guessIter, h, cmpU32]

end GuessingGame

namespace GuessingGame

/-- C1: when a successfully parsed guess equals the secret, the iteration
emits the win feedback (exactly one `win` event), the state transitions
from `Guessing` to `Won`, the run over that single input terminates with
success and consumes no further input, and no transition leaves `Won`
(a step from `Won` changes nothing and emits nothing). -/
theorem C1_win_transition (secret : Nat) (l : String)
    (h : parseU32 (rustTrim l) = some secret) :
    gameStep secret GameState.Guessing l =
      (GameState.Won, [Output.prompt, Output.echo secret, Output.win]) ∧
    (gameStep secret GameState.Guessing l).2.count Output.win = 1 ∧
    runLoop secret [ReadResult.line l] =
      ([Output.prompt, Output.echo secret, Output.win],
       some ExitCode.success, []) ∧
    (∀ l2 : String, gameStep secret GameState.Won l2 = (GameState.Won, [])) := by
  have hstep : guessIter secret l =
      (GameState.Won, [Output.prompt, Output.echo secret, Output.win]) :=
    guessIter_parse_eq h
  refine ⟨?_, ?_, ?_, ?_⟩
  · simpa [gameStep] using hstep
  · simp [gameStep, hstep, List.count_cons]
  · simp [runLoop, hstep]
  · intro l2
    simp [gameStep]

/-- C1 witness: with secret 42 and input line `"42"`. -/
theorem C1_win_transition_witness :
    parseU32 (rustTrim "42") = some 42 ∧
    (gameStep 42 GameState.Guessing "42" =
      (GameState.Won, [Output.prompt, Output.echo 42, Output.win]) ∧
    (gameStep 42 GameState.Guessing "42").2.count Output.win = 1 ∧
    runLoop 42 [ReadResult.line "42"] =
      ([Output.prompt, Output.echo 42, Output.win],
       some ExitCode.success, []) ∧
    (∀ l2 : String, gameStep 42 GameState.Won l2 = (GameState.Won, []))) :=
  ⟨by decide, C1_win_transition 42 "42" (by decide)⟩

/-- C2: a successfully parsed guess different from the secret is echoed and
answered with `Too small!` when below the secret and `Too big!` when above
it, and in both cases the state remains `Guessing` (the loop continues). -/
theorem C2_inequality_feedback (secret g : Nat) (l : String)
    (h : parseU32 (rustTrim l) = some g) (hne : g ≠ secret) :
    (g < secret → gameStep secret GameState.Guessing l =
      (GameState.Guessing, [Output.prompt, Output.echo g, Output.tooSmall])) ∧
    (secret < g → gameStep secret GameState.Guessing l =
      (GameState.Guessing, [Output.prompt, Output.echo g, Output.tooBig])) ∧
    (gameStep secret GameState.Guessing l).1 = GameState.Guessing := by
  refine ⟨?_, ?_, ?_⟩
  · intro hlt
    simpa [gameStep] using guessIter_parse_lt h hlt
  · intro hgt
    simpa [gameStep] using guessIter_parse_gt h hgt
  · rcases Nat.lt_or_ge g secret with hlt | hge
    · simp [gameStep, guessIter_parse_lt h hlt]
    · have hgt : secret < g := by omega
      simp [gameStep, guessIter_parse_gt h hgt]

/-- C2 witness: with secret 42 and input line `"10"` (guess 10 < 42). -/
theorem C2_inequality_feedback_witness :
    parseU32 (rustTrim "10") = some 10 ∧ 10 ≠ 42 ∧
    ((10 < 42 → gameStep 42 GameState.Guessing "10" =
      (GameState.Guessing, [Output.prompt, Output.echo 10, Output.tooSmall])) ∧
    (42 < 10 → gameStep 42 GameState.Guessing "10" =
      (GameState.Guessing, [Output.prompt, Output.echo 10, Output.tooBig])) ∧
    (gameStep 42 GameState.Guessing "10").1 = GameState.Guessing) :=
  ⟨by decide, by decide, C2_inequality_feedback 42 10 "10" (by decide) (by decide)⟩

/-- C3: an input line whose trimmed text does not parse as `u32` is
discarded: the iteration emits only the re-prompt (no echo, no
too-small/too-big/win feedback, no error event — the `Output` trace has no
error event type at all), the state remains `Guessing`, and the full
context, secret value included, is unchanged. -/
theorem C3_parse_failure_silent_retry (secret : Nat) (l : String)
    (h : parseU32 (rustTrim l) = none) :
    gameStep secret GameState.Guessing l =
      (GameState.Guessing, [Output.prompt]) ∧
    (∀ c : GameCtx, c.state = GameState.Guessing →
      ctxStep c l = (c, [Output.prompt])) := by
  refine ⟨by simpa [gameStep] using guessIter_parse_none h, ?_⟩
  intro c hc
  cases c with
  | mk s st =>
    cases hc
    simp [ctxStep, gameStep, guessIter_parse_none h]

/-- C3 witness: with secret 42 and the non-numeric input line `"abc"`. -/
theorem C3_parse_failure_silent_retry_witness :
    parseU32 (rustTrim "abc") = none ∧
    (gameStep 42 GameState.Guessing "abc" =
      (GameState.Guessing, [Output.prompt]) ∧
    (∀ c : GameCtx, c.state = GameState.Guessing →
      ctxStep c "abc" = (c, [Output.prompt]))) :=
  ⟨by decide, C3_parse_failure_silent_retry 42 "abc" (by decide)⟩

/-- C7: with secret 42 and input lines `"10"`, `"90"`, `"abc"`, `"42"`, the
run emits, in order, too-small feedback, too-big feedback, a silent retry
with no comparison feedback, then win feedback, terminates successfully
after the fourth input, and a fifth input would be left unconsumed. -/
theorem C7_concrete_scenario :
    runLoop 42 [ReadResult.line "10", ReadResult.line "90",
        ReadResult.line "abc", ReadResult.line "42"] =
      ([Output.prompt, Output.echo 10, Output.tooSmall,
        Output.prompt, Output.echo 90, Output.tooBig,
        Output.prompt,
        Output.prompt, Output.echo 42, Output.win],
       some ExitCode.success, []) ∧
    runLoop 42 [ReadResult.line "10", ReadResult.line "90",
        ReadResult.line "abc", ReadResult.line "42", ReadResult.line "7"] =
      ([Output.prompt, Output.echo 10, Output.tooSmall,
        Output.prompt, Output.echo 90, Output.tooBig,
        Output.prompt,
        Output.prompt, Output.echo 42, Output.win],
       some ExitCode.success, [ReadResult.line "7"]) := by
  exact ⟨by decide, by decide⟩

/-- C8: every successfully parsed guess `g` is echoed back (`You guessed:
{g}`) right after the prompt and before the semantic feedback, which is one
of too-small, too-big, or win. -/
theorem C8_guess_echoed (secret g : Nat) (l : String)
    (h : parseU32 (rustTrim l) = some g) :
    ∃ fb : Output, (guessIter secret l).2 =
        [Output.prompt, Output.echo g, fb] ∧
      (fb = Output.tooSmall ∨ fb = Output.tooBig ∨ fb = Output.win) := by
  rcases Nat.lt_trichotomy g secret with hlt | heq | hgt
  · exact ⟨Output.tooSmall, by simp [guessIter_parse_lt h hlt]⟩
  · subst heq
    exact ⟨Output.win, by simp [guessIter_parse_eq h]⟩
  · exact ⟨Output.tooBig, by simp [guessIter_parse_gt h hgt]⟩

/-- C8 witness: with secret 42 and input line `"90"` (guess 90). -/
theorem C8_guess_echoed_witness :
    parseU32 (rustTrim "90") = some 90 ∧
    (∃ fb : Output, (guessIter 42 "90").2 =
        [Output.prompt, Output.echo 90, fb] ∧
      (fb = Output.tooSmall ∨ fb = Output.tooBig ∨ fb = Output.win)) :=
  ⟨by decide, C8_guess_echoed 42 90 "90" (by decide)⟩

/-- C9: an input line whose trimmed text starts with `-` (a negative
number such as `"-5"`) fails the `u32` parse and is handled exactly like
non-numeric input: the iteration emits only the re-prompt — no echo and no
comparison feedback — and the state remains `Guessing`. -/
theorem C9_negative_input (secret : Nat) (l : String)
    (h : (rustTrim l).data.head? = some '-') :
    parseU32 (rustTrim l) = none ∧
    gameStep secret GameState.Guessing l =
      (GameState.Guessing, [Output.prompt]) := by
  have hparse : parseU32 (rustTrim l) = none := by
    rcases ht : (rustTrim l).data with _ | ⟨a, t⟩
    · rw [ht] at h
      simp at h
    · rw [ht] at h
      simp at h
      subst h
      simp [parseU32, ht]
  exact ⟨hparse, by simpa [gameStep] using guessIter_parse_none hparse⟩

/-- C9 witness: the concrete line `"-5"` with secret 42. -/
theorem C9_negative_input_witness :
    (rustTrim "-5").data.head? = some '-' ∧
    (parseU32 (rustTrim "-5") = none ∧
    gameStep 42 GameState.Guessing "-5" =
      (GameState.Guessing, [Output.prompt])) :=
  ⟨by decide, C9_negative_input 42 "-5" (by decide)⟩

end GuessingGame

namespace GuessingGame

/-- C4 counterexample: a failed read from standard input makes
`.expect("Failed to read line")` panic, which is a non-zero process exit —
refuting the claim that no input or I/O condition produces a non-zero exit. -/
theorem C4_counterexample :
    runLoop 42 [ReadResult.ioError] =
      ([Output.prompt], some ExitCode.panic, []) ∧
    ExitCode.panic ≠ ExitCode.success := by
  exact ⟨by decide, by decide⟩

/-- C4 (amended): for every execution in which every read from standard
input succeeds, there is no non-zero exit path: the run either is still
guessing or has terminated with the implicit success exit code via the win
branch; only a failed read can produce a (panic, non-zero) exit. -/
theorem C4_success_exit_without_io_error (secret : Nat)
    (inputs : List ReadResult) (h : ReadResult.ioError ∉ inputs) :
    (runLoop secret inputs).2.1 ≠ some ExitCode.panic ∧
    ((runLoop secret inputs).2.1 = none ∨
     (runLoop secret inputs).2.1 = some ExitCode.success) := by
  induction inputs with
  | nil => simp [runLoop]
  | cons r rest ih =>
    cases r with
    | ioError => simp at h
    | line l =>
      have h2 : ReadResult.ioError ∉ rest := by
        intro hm
        exact h (List.mem_cons_of_mem _ hm)
      have hrest := ih h2
      rcases hst : guessIter secret l with ⟨st, out⟩
      cases st with
      | Won => simp [runLoop, hst]
      | Guessing =>
        rcases hrl : runLoop secret rest with ⟨out2, ex, rem⟩
        rw [hrl] at hrest
        simpa [runLoop, hst, hrl] using hrest

/-- C4 witness for the amended claim: one successfully read line. -/
theorem C4_success_exit_without_io_error_witness :
    ReadResult.ioError ∉ [ReadResult.line "10"] ∧
    ((runLoop 42 [ReadResult.line "10"]).2.1 ≠ some ExitCode.panic ∧
    ((runLoop 42 [ReadResult.line "10"]).2.1 = none ∨
     (runLoop 42 [ReadResult.line "10"]).2.1 = some ExitCode.success)) :=
  ⟨by decide,
   C4_success_exit_without_io_error 42 [ReadResult.line "10"] (by decide)⟩

/-- C5: the secret is drawn from the inclusive range 1 to 100 (every raw
generator value yields `1 ≤ secret ≤ 100`), the draw is uniform (over one
full period of raw values each value of the range is drawn exactly once),
and the secret is immutable for the lifetime of the loop: running any list
of input lines leaves the context's secret field unchanged, so every
iteration compares against the same secret. -/
theorem C5_secret_range_uniform_immutable (r v : Nat)
    (h1 : 1 ≤ v) (h2 : v ≤ 100) :
    (1 ≤ genRange1To100 r ∧ genRange1To100 r ≤ 100) ∧
    ((Finset.range 100).filter (fun x => genRange1To100 x = v)).card = 1 ∧
    (∀ (c : GameCtx) (ls : List String), (ctxRun c ls).secret = c.secret) := by
  refine ⟨⟨by simp [genRange1To100], ?_⟩, ?_, ?_⟩
  · have hm : r % 100 < 100 := Nat.mod_lt r (by norm_num)
    simp only [genRange1To100]
    omega
  · have hset : (Finset.range 100).filter (fun x => genRange1To100 x = v) =
        {v - 1} := by
      ext x
      simp only [Finset.mem_filter, Finset.mem_range, Finset.mem_singleton,
        genRange1To100]
      omega
    rw [hset]
    simp
  · intro c ls
    induction ls generalizing c with
    | nil => rfl
    | cons l t ih =>
      have hsec : (ctxStep c l).1.secret = c.secret := by
        rcases hg : gameStep c.secret c.state l with ⟨s, out⟩
        simp [ctxStep, hg]
      calc (ctxRun c (l :: t)).secret
          = (ctxRun (ctxStep c l).1 t).secret := rfl
        _ = (ctxStep c l).1.secret := ih _
        _ = c.secret := hsec

/-- C5 witness: raw generator value 0 and range value 1. -/
theorem C5_secret_range_uniform_immutable_witness :
    1 ≤ 1 ∧ 1 ≤ 100 ∧
    ((1 ≤ genRange1To100 0 ∧ genRange1To100 0 ≤ 100) ∧
    ((Finset.range 100).filter (fun x => genRange1To100 x = 1)).card = 1 ∧
    (∀ (c : GameCtx) (ls : List String), (ctxRun c ls).secret = c.secret)) :=
  ⟨by decide, by decide,
   C5_secret_range_uniform_immutable 0 1 (by decide) (by decide)⟩

/-- C6: within one run, re-submitting the same incorrect guess any number
of times yields the identical feedback each time — the run on `n` copies of
the line emits `n` copies of that line's single-iteration output trace and
the state never leaves `Guessing` (no exit, all input consumed), because
the secret never changes within a run. -/
theorem C6_same_guess_same_feedback (secret g : Nat) (l : String) (n : Nat)
    (h : parseU32 (rustTrim l) = some g) (hne : g ≠ secret) :
    runLoop secret (List.replicate n (ReadResult.line l)) =
      ((List.replicate n (guessIter secret l).2).flatten, none, []) := by
  have hout : ∃ out, guessIter secret l = (GameState.Guessing, out) := by
    rcases Nat.lt_or_ge g secret with hlt | hge
    · exact ⟨_, guessIter_parse_lt h hlt⟩
    · have hgt : secret < g := by omega
      exact ⟨_, guessIter_parse_gt h hgt⟩
  rcases hout with ⟨out, hstep⟩
  induction n with
  | zero => simp [runLoop]
  | succ k ih =>
    simp [List.replicate_succ, runLoop, hstep, ih]

/-- C6 witness: secret 42 and the incorrect guess line `"10"` twice. -/
theorem C6_same_guess_same_feedback_witness :
    parseU32 (rustTrim "10") = some 10 ∧ 10 ≠ 42 ∧
    runLoop 42 (List.replicate 2 (ReadResult.line "10")) =
      ((List.replicate 2 (guessIter 42 "10").2).flatten, none, []) :=
  ⟨by decide, by decide,
   C6_same_guess_same_feedback 42 10 "10" 2 (by decide) (by decide)⟩

end GuessingGame

namespace RustEx

/-- Helper: the write loop of `transpose` computes the pointwise transpose,
reading only from the unmodified input matrix. -/
theorem transpose_apply (m : Fin 3 → Fin 3 → Int) (i j : Fin 3) :
    transpose m i j = m j i := by
  fin_cases i <;> fin_cases j <;> rfl

/-- C10: for every 3×3 integer matrix, the transposed matrix at `(i, j)`
equals the input at `(j, i)` for all indices, and transposing twice gives
back the original matrix (transpose is an involution); the input matrix is
taken by value and never written. -/
theorem C10_transpose_pointwise_involutive (m : Fin 3 → Fin 3 → Int) :
    (∀ i j : Fin 3, transpose m i j = m j i) ∧
    transpose (transpose m) = m := by
  refine ⟨transpose_apply m, ?_⟩
  funext i j
  rw [transpose_apply, transpose_apply]

end RustEx
